import Mathlib

/-!
Shallow embedding of the MOEHE-License-Manager expiry/notification core
(src/server.py, src/reports.py).

Conventions of the embedding:
* Timestamps are instants measured in integer seconds (`Int`); a Python
  `datetime` subtraction `expiry - now` becomes the integer `texp - now`.
* `timedelta.days` is floor division of the total seconds by 86400
  (Python normalizes timedeltas so that `.days` rounds toward -infinity).
* `math.ceil(delta.total_seconds() / 86400)` is the ceiling of the same
  quotient.
* A stored `expiry_date` string is modelled by `ExpiryField`: the field can
  be absent/empty, present but unparseable by `datetime.fromisoformat`, or
  parseable to an instant.
* `send_email` in the source catches every exception and returns a
  `(success, message)` pair; it is modelled as an oracle
  `sendResult : String → Bool` giving the success of the attempt keyed by
  recipient address.  Log writes and e-mail sends are collected in output
  lists instead of being performed.
-/

namespace LicenseManager

/-- Python `timedelta.days` of a delta of `deltaSeconds` seconds:
floor division by 86400 (rounds toward negative infinity). -/
def tdDays (deltaSeconds : Int) : Int := Int.fdiv deltaSeconds 86400

/-- `math.ceil(delta.total_seconds() / 86400)` for a delta of
`deltaSeconds` seconds: the ceiling of the quotient, written as the
negated floor of the negated quotient. -/
def ceilDays (deltaSeconds : Int) : Int := -(Int.fdiv (-deltaSeconds) 86400)

/-- The stored `expiry_date` field of a service document. -/
inductive ExpiryField where
  /-- The field is missing, `None` or the empty string (falsy in Python). -/
  | absent : ExpiryField
  /-- The field is a non-empty string that `datetime.fromisoformat`
  rejects (`ValueError` / exception caught by the caller). -/
  | malformed : ExpiryField
  /-- The field parses to the instant `t` (seconds). -/
  | parsed (t : Int) : ExpiryField
deriving DecidableEq, Repr

/-- An embedded owner dict: `name` plus an optional `email`
(`owner.get("email")` may be missing). -/
structure Owner where
  name : String
  email : Option String
deriving DecidableEq, Repr

/-- A per-service reminder threshold dict (`{"id", "days_before", "label"}`);
`create_service`/`update_service` guarantee each stored threshold carries an
`id`, so the embedded form has a mandatory one. -/
structure ReminderThreshold where
  id : String
  days_before : Int
  label : String
deriving DecidableEq, Repr

/-! ## Report layer: `get_services_df` (src/reports.py lines 12-80) -/

/-- A cell of the exported DataFrame: either a string or a number.
(`Days Left` is the string `"N/A"` or an integer day count; the
`%Y-%m-%d` formatting of `Expiry Date` is abstracted to the parsed
instant.) -/
inductive Cell where
  | str (s : String) : Cell
  | int (n : Int) : Cell
deriving DecidableEq, Repr

/-- The raw service document fields read by `get_services_df` via
`s.get(...)`.  The documents come straight from the store, so this is wider
than the `Service` pydantic model (e.g. `software`, `environment`).
`status` is the stored `status` field (`s.get("status", "Active")` defaults
to `"Active"` when it is missing). -/
structure ReportService where
  name : String
  software : String
  environment : String
  provider : String
  category_name : String
  cost : Int
  expiry : ExpiryField
  status : Option String
  license_type : String
  unit : String
  quantity : Int
  utilized_quantity : Int
  contact_name : String
  contact_email : String
  notes : String
deriving DecidableEq, Repr

/-- One row dict appended by the loop body of `get_services_df`
(reports.py lines 20-78): keys in insertion order with their cell values.
`daysLeft`, `expiryFmt` and `calcStatus` are the three loop-local values. -/
def reportRowWith (s : ReportService) (expiryFmt daysLeft : Cell)
    (calcStatus : String) : List (String × Cell) :=
  [("Name", Cell.str s.name),
   ("Software", Cell.str s.software),
   ("Environment", Cell.str s.environment),
   ("Provider", Cell.str s.provider),
   ("Category", Cell.str s.category_name),
   ("Cost", Cell.int s.cost),
   ("Expiry Date", expiryFmt),
   ("Days Left", daysLeft),
   ("Status", Cell.str calcStatus),
   ("License Type", Cell.str s.license_type),
   ("Unit", Cell.str s.unit),
   ("Quantity", Cell.int s.quantity),
   ("Utilized", Cell.int s.utilized_quantity),
   ("Contact Name", Cell.str s.contact_name),
   ("Contact Email", Cell.str s.contact_email),
   ("Notes", Cell.str s.notes)]

/-- The loop body of `get_services_df` for one service document at
reference time `now` (reports.py lines 20-78).  With a parseable expiry the
day count is `math.ceil(delta.total_seconds()/86400)` and the status is
recomputed from it; with an absent expiry, or when parsing raises (the
`except` branch), the defaults `"N/A"` / `"N/A"` / stored-status-or-Active
survive. -/
def reportRow (now : Int) (s : ReportService) : List (String × Cell) :=
  match s.expiry with
  | ExpiryField.parsed t =>
      let daysVal := ceilDays (t - now)
      let calculatedStatus : String :=
        if daysVal < 0 then "Expired"
        else if daysVal ≤ 7 then "Critical"
        else if daysVal ≤ 30 then "Warning"
        else "Safe"
      reportRowWith s (Cell.int t) (Cell.int daysVal) calculatedStatus
  | _ =>
      reportRowWith s (Cell.str "N/A") (Cell.str "N/A") (s.status.getD "Active")

/-- Look a column up in a row (all rows built here have distinct keys). -/
def rowGet (row : List (String × Cell)) (key : String) : Option Cell :=
  (row.find? (fun p => p.1 == key)).map (fun p => p.2)

/-- The resulting DataFrame: column labels plus one list of cells per row. -/
structure Frame where
  columns : List String
  rows : List (List Cell)
deriving DecidableEq, Repr

/-- `get_services_df` (reports.py lines 12-80): an empty service list
yields the fixed eight-column empty frame of line 15; otherwise the columns
are the keys of the row dicts (in insertion order) and there is one row per
service. -/
def get_services_df (now : Int) (services : List ReportService) : Frame :=
  match services with
  | [] =>
    { columns := ["Name", "Provider", "Category", "Cost", "Expiry Date",
                  "Days Left", "Status", "Owner"],
      rows := [] }
  | s0 :: _ =>
    { columns := (reportRow now s0).map (fun p => p.1),
      rows := services.map (fun s => (reportRow now s).map (fun p => p.2)) }

/-! ## Notification core: `server.py` -/

/-- The service-document fields that the notification core and
`update_service` touch.  Fields the claims never mention (cost, category
lookup, contact data, audit timestamps) are elided. -/
structure Service where
  id : String
  name : String
  provider : String
  expiry : ExpiryField
  reminder_thresholds : List ReminderThreshold
  owners : List Owner
  notifications_sent : List String
deriving DecidableEq, Repr

/-- An attempted e-mail send (`send_email(to, subject, html)`; the html
body is elided). -/
structure EmailAttempt where
  toAddr : String
  subject : String
deriving DecidableEq, Repr

/-- A document inserted into `db.notification_logs`.  The manual path
(server.py line 1197) writes a `status` key (`"sent"`/`"failed"`); the
automatic sweep (lines 1239-1248) writes no `status` key at all, hence the
`Option`.  Likewise only the sweep writes `days_until_expiry`. -/
structure LogEntry where
  service_id : String
  service_name : String
  recipient_email : String
  recipient_name : String
  type : String
  status : Option String
  days_until_expiry : Option Int
deriving DecidableEq, Repr

/-- `send_manual_reminder` result (server.py lines 1158-1204): the response
message, the e-mails attempted, the log documents inserted, and
`sent_count`.  `sendResult` is the success outcome of `send_email` per
recipient; the source catches every transport exception inside
`send_email`, so the loop always continues to the next owner. -/
structure ManualResult where
  message : String
  emails : List EmailAttempt
  logs : List LogEntry
  sent_count : Nat
deriving Repr

/-- `send_manual_reminder` (server.py lines 1158-1204).  With no owners it
returns the explicit `"No owners to notify"` message (line 1171) without
sending or logging; otherwise it loops over the owners, attempts a send
for each one that has an e-mail address, and inserts one log document per
attempt with `status` `"sent"` or `"failed"` according to the outcome.
Owners without an address are only warned about (line 1201). -/
def send_manual_reminder (sendResult : String → Bool) (s : Service) :
    ManualResult :=
  if s.owners.isEmpty then
    { message := "No owners to notify", emails := [], logs := [], sent_count := 0 }
  else
    let attempts : List (Owner × String) :=
      s.owners.filterMap (fun o => o.email.map (fun e => (o, e)))
    let emails := attempts.map (fun oe =>
      { toAddr := oe.2, subject := "Reminder: " ++ s.name ++ " Expiry" })
    let logs := attempts.map (fun oe =>
      { service_id := s.id, service_name := s.name,
        recipient_email := oe.2, recipient_name := oe.1.name,
        type := "manual_reminder",
        status := some (if sendResult oe.2 then "sent" else "failed"),
        days_until_expiry := none })
    let sent := (attempts.filter (fun oe => sendResult oe.2)).length
    { message := "Reminders sent to " ++ toString sent ++ " recipients",
      emails := emails, logs := logs, sent_count := sent }

/-- The per-service body of `check_expiring_services` (server.py lines
1216-1248) run at reference time `now` against the global settings
threshold list (`settings.get("notification_thresholds", [30, 7, 1])`).
A missing expiry is skipped (`continue`, line 1217) and a parse failure is
skipped (`except ValueError: continue`, line 1222); otherwise
`days_until = (expiry - now).days` and, for every `days` in `thresholds`
with `days_until == days`, every owner with an e-mail address gets one
send and one log document (no `status` key, the send outcome is ignored).
The service document itself is never written: the returned service is the
input unchanged. -/
def sweepService (thresholds : List Int) (now : Int) (s : Service) :
    List EmailAttempt × List LogEntry × Service :=
  match s.expiry with
  | ExpiryField.parsed t =>
      let daysUntil := tdDays (t - now)
      let fired := thresholds.filter (fun days => daysUntil == days)
      let emails := fired.flatMap (fun _ =>
        s.owners.filterMap (fun o => o.email.map (fun e =>
          ({ toAddr := e,
             subject := "Action Required: " ++ s.name ++ " Expiring Soon" }
             : EmailAttempt))))
      let logs := fired.flatMap (fun days =>
        s.owners.filterMap (fun o => o.email.map (fun e =>
          ({ service_id := s.id, service_name := s.name,
             recipient_email := e, recipient_name := o.name,
             type := "auto_reminder", status := none,
             days_until_expiry := some days } : LogEntry))))
      (emails, logs, s)
  | _ => ([], [], s)

/-- `check_expiring_services` over the whole service list: concatenated
e-mails and logs, plus the (unchanged) stored services. -/
def check_expiring_services (thresholds : List Int) (now : Int)
    (services : List Service) :
    List EmailAttempt × List LogEntry × List Service :=
  (services.flatMap (fun s => (sweepService thresholds now s).1),
   services.flatMap (fun s => (sweepService thresholds now s).2.1),
   services.map (fun s => (sweepService thresholds now s).2.2))

/-- The threshold evaluator as the specification words it (section 4.2):
thresholds of the service whose `days_before` exactly equals the current
integer day difference AND whose id is not already in the notified-set.
Stated only to be compared against the source's `sweepService`. -/
def dueThresholdsSpec (now : Int) (s : Service) : List ReminderThreshold :=
  match s.expiry with
  | ExpiryField.parsed t =>
      s.reminder_thresholds.filter (fun th =>
        th.days_before == tdDays (t - now) &&
          !(s.notifications_sent.contains th.id))
  | _ => []

/-! ## Dashboard stats: `get_dashboard_stats` (server.py lines 1097-1154) -/

/-- The urgency bucket a single service falls into in the
`get_dashboard_stats` counting loop (lines 1125-1143): with a parseable
expiry, `days_until = (expiry - now).days`; `days_until < 0` counts as
expired, `days_until <= 30` as expiring-soon, otherwise safe.  A missing
expiry counts as safe (line 1143); an unparseable one is counted in no
bucket (`except ValueError: pass`, lines 1138-1140). -/
inductive DashBucket where
  | expired : DashBucket
  | expiring_soon : DashBucket
  | safe : DashBucket
  | uncounted : DashBucket
deriving DecidableEq, Repr

/-- Classification of one service by the `get_dashboard_stats` loop body
(the loop reads only the document's `expiry_date` field). -/
def dashboardBucket (now : Int) (expiry : ExpiryField) : DashBucket :=
  match expiry with
  | ExpiryField.parsed t =>
      let daysUntil := tdDays (t - now)
      if daysUntil < 0 then DashBucket.expired
      else if daysUntil ≤ 30 then DashBucket.expiring_soon
      else DashBucket.safe
  | ExpiryField.absent => DashBucket.safe
  | ExpiryField.malformed => DashBucket.uncounted

/-- The counters accumulated by `get_dashboard_stats` (total cost elided). -/
structure DashStats where
  total : Nat
  expiring_soon : Nat
  expired : Nat
  safe : Nat
deriving DecidableEq, Repr

/-- The counting loop of `get_dashboard_stats` (server.py lines
1117-1151): one bucket increment per service according to
`dashboardBucket`; services with an unparseable expiry increment no
bucket. -/
def get_dashboard_stats (now : Int) (services : List Service) : DashStats :=
  { total := services.length,
    expiring_soon := (services.filter
      (fun s => dashboardBucket now s.expiry == DashBucket.expiring_soon)).length,
    expired := (services.filter
      (fun s => dashboardBucket now s.expiry == DashBucket.expired)).length,
    safe := (services.filter
      (fun s => dashboardBucket now s.expiry == DashBucket.safe)).length }

/-- The `"Status"` string the report layer computes for the same stored
document, obtained by reading the `Status` cell of `reportRow`.  The
dashboard reads fewer fields than the report, so the extra report fields
are filled with defaults; `status` carries the stored status field. -/
def reportStatusOf (now : Int) (expiry : ExpiryField)
    (storedStatus : Option String) : Option Cell :=
  rowGet
    (reportRow now
      { name := "", software := "", environment := "", provider := "",
        category_name := "", cost := 0, expiry := expiry,
        status := storedStatus, license_type := "", unit := "",
        quantity := 0, utilized_quantity := 0, contact_name := "",
        contact_email := "", notes := "" })
    "Status"

/-! ## `update_service` (server.py lines 782-818) -/

/-- The `ServiceUpdate` payload (server.py lines 228-240) restricted to the
fields kept in the embedded `Service`; `none` is a field the client left
out (`None`), which the dict comprehension of line 789 drops from
`update_data`.  The payload has no `notifications_sent` field. -/
structure ServiceUpdatePayload where
  name : Option String
  provider : Option String
  expiry_date : Option ExpiryField
  reminder_thresholds : Option (List ReminderThreshold)
  owners : Option (List Owner)
deriving Repr

/-- `update_service` (server.py lines 782-818) at the document level: the
`$set` of line 816 overwrites exactly the fields present in `update_data`
(the non-`None` payload fields, plus `notifications_sent := []` whenever
`"reminder_thresholds" in update_data`, lines 813-814 — note this tests
key presence, so even an empty replacement list clears the notified-set).
The uuid back-fill for thresholds/owners lacking an `id` (lines 801-809)
is elided: embedded thresholds always carry an id. -/
def update_service (existing : Service) (p : ServiceUpdatePayload) : Service :=
  { existing with
    name := p.name.getD existing.name,
    provider := p.provider.getD existing.provider,
    expiry := p.expiry_date.getD existing.expiry,
    reminder_thresholds := p.reminder_thresholds.getD existing.reminder_thresholds,
    owners := p.owners.getD existing.owners,
    notifications_sent :=
      if p.reminder_thresholds.isSome then [] else existing.notifications_sent }

/-! ## Concrete sample documents used by witnesses and counterexamples -/

/-- A service whose expiry is exactly 7 whole days after the epoch, with a
7-day reminder threshold and one owner with an e-mail address. -/
def svcDue : Service :=
  { id := "svc-1", name := "Alpha", provider := "Acme",
    expiry := ExpiryField.parsed 604800,
    reminder_thresholds := [{ id := "th-7", days_before := 7, label := "Second reminder" }],
    owners := [{ name := "Alice", email := some "alice@example.com" }],
    notifications_sent := [] }

/-- `svcDue` after its 7-day threshold id has been recorded as notified. -/
def svcNotified : Service :=
  { svcDue with id := "svc-2", notifications_sent := ["th-7"] }

/-- `svcDue` with expiry half a day after the epoch (a day-boundary case). -/
def svcHalfDay : Service :=
  { svcDue with id := "svc-3", expiry := ExpiryField.parsed 43200 }

/-- A raw report document with a parseable expiry half a day after the
epoch and no stored status. -/
def rsvcHalfDay : ReportService :=
  { name := "Alpha", software := "Suite", environment := "Prod",
    provider := "Acme", category_name := "Uncategorized", cost := 0,
    expiry := ExpiryField.parsed 43200, status := none, license_type := "",
    unit := "", quantity := 0, utilized_quantity := 0, contact_name := "",
    contact_email := "", notes := "" }

/-- A raw report document with no `expiry_date` and no stored `status`. -/
def rsvcNoExpiry : ReportService :=
  { rsvcHalfDay with expiry := ExpiryField.absent }

/-- A raw report document expiring exactly 10 whole days after the epoch. -/
def rsvcTen : ReportService :=
  { rsvcHalfDay with expiry := ExpiryField.parsed 864000 }

/-! ## Helper lemmas -/

/-- Both branches of `reportRow` emit the same sixteen column keys. -/
theorem reportRow_keys (now : Int) (s : ReportService) :
    (reportRow now s).map (fun p => p.1) =
      ["Name", "Software", "Environment", "Provider", "Category", "Cost",
       "Expiry Date", "Days Left", "Status", "License Type", "Unit",
       "Quantity", "Utilized", "Contact Name", "Contact Email", "Notes"] := by
  cases h : s.expiry <;> simp [reportRow, reportRowWith, h]

/-- The `Status` cell of a row with a parseable expiry is the recomputed
four-way classification of the ceiling day count. -/
theorem rowGet_status_parsed (now t : Int) (s : ReportService)
    (h : s.expiry = ExpiryField.parsed t) :
    rowGet (reportRow now s) "Status" =
      some (Cell.str
        (if ceilDays (t - now) < 0 then "Expired"
         else if ceilDays (t - now) ≤ 7 then "Critical"
         else if ceilDays (t - now) ≤ 30 then "Warning"
         else "Safe")) := by
  simp [reportRow, h, reportRowWith, rowGet, List.find?]

/-- The `Days Left` cell of a row with a parseable expiry is the ceiling
day count. -/
theorem rowGet_daysLeft_parsed (now t : Int) (s : ReportService)
    (h : s.expiry = ExpiryField.parsed t) :
    rowGet (reportRow now s) "Days Left" =
      some (Cell.int (ceilDays (t - now))) := by
  simp [reportRow, h, reportRowWith, rowGet, List.find?]

/-- Rows with an absent or malformed expiry keep the `"N/A"` day count and
the stored status (default `"Active"`). -/
theorem rowGet_not_parsed (now : Int) (s : ReportService)
    (h : ∀ t, s.expiry ≠ ExpiryField.parsed t) :
    rowGet (reportRow now s) "Days Left" = some (Cell.str "N/A") ∧
    rowGet (reportRow now s) "Status" =
      some (Cell.str (s.status.getD "Active")) := by
  cases he : s.expiry with
  | parsed t => exact absurd he (h t)
  | absent =>
      constructor <;>
        simp [reportRow, he, reportRowWith, rowGet, List.find?]
  | malformed =>
      constructor <;>
        simp [reportRow, he, reportRowWith, rowGet, List.find?]

/-- Projecting the payload (`o`, e-mail) pairs of a filterMap back to the
e-mail component recovers the plain e-mail filterMap. -/
theorem filterMap_email_proj {β : Type} (owners : List Owner)
    (F : Owner → String → β) (g : β → String)
    (hg : ∀ o e, g (F o e) = e) :
    ((owners.filterMap (fun o => o.email.map (fun e => F o e))).map g) =
      owners.filterMap (fun o => o.email) := by
  induction owners with
  | nil => rfl
  | cons o os ih => cases h : o.email <;> simp [List.filterMap_cons, h, hg, ih]

/-- The sweep leaves every service document unchanged (nothing is ever
written back to the store by `check_expiring_services`). -/
theorem sweepService_state (thresholds : List Int) (now : Int) (s : Service) :
    (sweepService thresholds now s).2.2 = s := by
  cases h : s.expiry <;> simp [sweepService, h]

/-! ## Claims -/

/-- C1: the automatic sweep is claimed to add a dispatched threshold's id
to the service's notified-set so it is never due again.  The source's
`check_expiring_services` never writes the service document at all: at a
service exactly 7 whole days from expiry the sweep dispatches, returns the
service unchanged (`notifications_sent` still empty), and a second pass at
the same time dispatches the very same reminders again. -/
theorem c1_sweep_never_marks_notified :
    (sweepService [30, 7, 1] 0 svcDue).1 ≠ [] ∧
    (sweepService [30, 7, 1] 0 svcDue).2.2 = svcDue ∧
    (sweepService [30, 7, 1] 0 ((sweepService [30, 7, 1] 0 svcDue).2.2)).1 =
      (sweepService [30, 7, 1] 0 svcDue).1 := by
  decide

/-- C2 counterexample: a service whose only reminder threshold (id
`"th-7"`, `days_before = 7`) is already in `notifications_sent`, exactly
7 whole days before expiry.  The spec-side evaluator returns nothing, yet
the sweep still dispatches: the claimed "AND its id is not already in the
notified-set" condition is not checked by the code. -/
theorem c2_counterexample :
    dueThresholdsSpec 0 svcNotified = [] ∧
    svcNotified.notifications_sent.contains "th-7" = true ∧
    (∃ th ∈ svcNotified.reminder_thresholds,
      th.days_before = tdDays (604800 - 0)) ∧
    (sweepService [30, 7, 1] 0 svcNotified).1 ≠ [] := by
  decide

/-- C2 (amended): for a service with a parseable expiry, the sweep
dispatches a reminder exactly when the truncated day difference
`(expiry - now).days` equals one of the global settings threshold values
and at least one owner has an e-mail address; the service's notified-set
is not consulted (the dispatched e-mails are unchanged under any value of
`notifications_sent`). -/
theorem c2_amended (ths : List Int) (now t : Int) (s : Service)
    (h : s.expiry = ExpiryField.parsed t) :
    ((sweepService ths now s).1 ≠ [] ↔
      (tdDays (t - now) ∈ ths ∧ ∃ o ∈ s.owners, o.email.isSome)) ∧
    (∀ ns, (sweepService ths now { s with notifications_sent := ns }).1 =
      (sweepService ths now s).1) := by
  constructor
  · simp only [sweepService, h]
    rw [Ne, List.flatMap_eq_nil_iff]
    push_neg
    constructor
    · rintro ⟨d, hd, hne⟩
      have hdu : tdDays (t - now) = d := by
        have := List.of_mem_filter hd
        simpa using this
      refine ⟨hdu ▸ List.mem_of_mem_filter hd, ?_⟩
      rw [Ne, List.filterMap_eq_nil_iff] at hne
      push_neg at hne
      obtain ⟨o, ho, hmap⟩ := hne
      exact ⟨o, ho, by
        cases he : o.email with
        | none => exact absurd (by simp [he]) hmap
        | some e => simp [he]⟩
    · rintro ⟨hmem, o, ho, hsome⟩
      refine ⟨tdDays (t - now), List.mem_filter.2 ⟨hmem, by simp⟩, ?_⟩
      rw [Ne, List.filterMap_eq_nil_iff]
      push_neg
      obtain ⟨e, he⟩ := Option.isSome_iff_exists.1 hsome
      exact ⟨o, ho, by simp [he]⟩
  · intro ns
    simp [sweepService, h]

/-- C2 witness: the amended dispatch characterization instantiated at a
concrete due service with one owner. -/
theorem c2_amended_witness :
    (sweepService [30, 7, 1] 0 svcDue).1 ≠ [] :=
  (c2_amended [30, 7, 1] 0 604800 svcDue rfl).1.2
    ⟨by decide, ⟨{ name := "Alice", email := some "alice@example.com" },
      by decide, by decide⟩⟩

/-- C5: the ceiling day count used by the report layer and the truncated
`.days` count used by the sweep differ half a day before expiry: the
report shows `Days Left = 1`, so a 1-day threshold matches under the
ceiling convention, yet the sweep computes 0 days and dispatches nothing
for the threshold value 1. -/
theorem c5_day_count_conventions_differ :
    ceilDays (43200 - 0) ≠ tdDays (43200 - 0) ∧
    ceilDays 43200 = 1 ∧ tdDays 43200 = 0 ∧
    rowGet (reportRow 0 rsvcHalfDay) "Days Left" = some (Cell.int 1) ∧
    (sweepService [1] 0 svcHalfDay).1 = [] := by
  decide

/-- C3: for a service document whose stored expiry parses, the report
layer's `Days Left` is the ceiling day count `ceil((expiry - now)/86400)`
and its `Status` is Expired exactly when that count is negative, Critical
exactly on 0..7, Warning exactly on 8..30, Safe exactly above 30 — and it
is always one of those four strings. -/
theorem c3_report_status_fields (s : ReportService) (t now : Int)
    (h : s.expiry = ExpiryField.parsed t) :
    rowGet (reportRow now s) "Days Left" =
      some (Cell.int (ceilDays (t - now))) ∧
    (rowGet (reportRow now s) "Status" = some (Cell.str "Expired") ↔
      ceilDays (t - now) < 0) ∧
    (rowGet (reportRow now s) "Status" = some (Cell.str "Critical") ↔
      0 ≤ ceilDays (t - now) ∧ ceilDays (t - now) ≤ 7) ∧
    (rowGet (reportRow now s) "Status" = some (Cell.str "Warning") ↔
      8 ≤ ceilDays (t - now) ∧ ceilDays (t - now) ≤ 30) ∧
    (rowGet (reportRow now s) "Status" = some (Cell.str "Safe") ↔
      30 < ceilDays (t - now)) ∧
    (rowGet (reportRow now s) "Status" = some (Cell.str "Expired") ∨
     rowGet (reportRow now s) "Status" = some (Cell.str "Critical") ∨
     rowGet (reportRow now s) "Status" = some (Cell.str "Warning") ∨
     rowGet (reportRow now s) "Status" = some (Cell.str "Safe")) := by
  rw [rowGet_status_parsed now t s h, rowGet_daysLeft_parsed now t s h]
  refine ⟨rfl, ?_, ?_, ?_, ?_, ?_⟩ <;>
    split_ifs with h1 h2 h3 <;> simp <;> omega

/-- C3 witness: the field characterization at a document expiring exactly
10 whole days after the epoch (day count 10, status Warning). -/
theorem c3_report_status_fields_witness :
    rowGet (reportRow 0 rsvcTen) "Days Left" =
      some (Cell.int (ceilDays (864000 - 0))) ∧
    (rowGet (reportRow 0 rsvcTen) "Status" = some (Cell.str "Warning") ↔
      8 ≤ ceilDays (864000 - 0) ∧ ceilDays (864000 - 0) ≤ 30) :=
  ⟨(c3_report_status_fields rsvcTen 864000 0 rfl).1,
   (c3_report_status_fields rsvcTen 864000 0 rfl).2.2.2.1⟩

/-- C4 counterexample: a service document without an `expiry_date` and
without a stored `status` field is rendered with `Status = "Active"` (the
`s.get("status", "Active")` default of reports.py line 24), not
`"Safe"` as claimed. -/
theorem c4_counterexample :
    rowGet (reportRow 0 rsvcNoExpiry) "Days Left" = some (Cell.str "N/A") ∧
    rowGet (reportRow 0 rsvcNoExpiry) "Status" = some (Cell.str "Active") ∧
    ¬ rowGet (reportRow 0 rsvcNoExpiry) "Status" = some (Cell.str "Safe") := by
  decide

/-- C4 (amended): for every reference time, a service record without an
`expiry_date` is rendered with `Days Left = "N/A"` and `Status` equal to
the record's stored status field, defaulting to `"Active"` when that field
is absent — the status is not recomputed and in particular is not forced
to Safe. -/
theorem c4_no_expiry_keeps_stored_status (s : ReportService) (now : Int)
    (h : s.expiry = ExpiryField.absent) :
    rowGet (reportRow now s) "Days Left" = some (Cell.str "N/A") ∧
    rowGet (reportRow now s) "Status" =
      some (Cell.str (s.status.getD "Active")) :=
  rowGet_not_parsed now s (fun t ht => by rw [h] at ht; exact ExpiryField.noConfusion ht)

/-- C4 witness: the amended rendering at the concrete no-expiry document. -/
theorem c4_no_expiry_keeps_stored_status_witness :
    rowGet (reportRow 0 rsvcNoExpiry) "Status" =
      some (Cell.str (rsvcNoExpiry.status.getD "Active")) :=
  (c4_no_expiry_keeps_stored_status rsvcNoExpiry 0 rfl).2

/-- C6: an update whose payload includes a `reminder_thresholds` list
(line 813 tests key presence, so even an empty list counts) stores
`notifications_sent = []`; an update that leaves the field out (`None`,
dropped by the dict comprehension of line 789) leaves
`notifications_sent` unchanged. -/
theorem c6_update_resets_notified_set (ex : Service)
    (p : ServiceUpdatePayload) :
    (∀ l, p.reminder_thresholds = some l →
      (update_service ex p).notifications_sent = []) ∧
    (p.reminder_thresholds = none →
      (update_service ex p).notifications_sent = ex.notifications_sent) := by
  constructor
  · intro l hl
    simp [update_service, hl]
  · intro hn
    simp [update_service, hn]

/-- A payload that replaces the reminder thresholds and nothing else. -/
def payloadThresholds : ServiceUpdatePayload :=
  { name := none, provider := none, expiry_date := none,
    reminder_thresholds :=
      some [{ id := "th-30", days_before := 30, label := "First reminder" }],
    owners := none }

/-- A payload in which every optional field was left out. -/
def payloadEmpty : ServiceUpdatePayload :=
  { name := none, provider := none, expiry_date := none,
    reminder_thresholds := none, owners := none }

/-- C6 witness: replacing thresholds on an already-notified service clears
its notified-set, while an update touching nothing preserves it. -/
theorem c6_update_resets_notified_set_witness :
    (update_service svcNotified payloadThresholds).notifications_sent = [] ∧
    (update_service svcNotified payloadEmpty).notifications_sent =
      svcNotified.notifications_sent :=
  ⟨(c6_update_resets_notified_set svcNotified payloadThresholds).1 _ rfl,
   (c6_update_resets_notified_set svcNotified payloadEmpty).2 rfl⟩

/-- C9: with an empty owners list the manual reminder operation returns
the explicit `"No owners to notify"` message, attempts no e-mail, inserts
no notification-log entry and counts zero sends — it is not an error. -/
theorem c9_manual_reminder_no_owners (f : String → Bool) (s : Service)
    (h : s.owners = []) :
    send_manual_reminder f s =
      { message := "No owners to notify", emails := [], logs := [],
        sent_count := 0 } := by
  simp [send_manual_reminder, h]

/-- A concrete service with no owners at all. -/
def svcNoOwners : Service :=
  { svcDue with id := "svc-4", owners := [] }

/-- C9 witness: the no-op result at the concrete ownerless service. -/
theorem c9_manual_reminder_no_owners_witness :
    send_manual_reminder (fun _ => true) svcNoOwners =
      { message := "No owners to notify", emails := [], logs := [],
        sent_count := 0 } :=
  c9_manual_reminder_no_owners (fun _ => true) svcNoOwners rfl

/-- C10: the export frame of the empty service list has exactly the fixed
eight columns ending in `Owner`, while every non-empty list yields the
sixteen-column header (with `Software`, `Environment`, `License Type`,
`Notes`, and no `Owner` column) and one row per service — so an empty
report's headers differ from every non-empty report's. -/
theorem c10_export_columns (now : Int) (services : List ReportService) :
    ((get_services_df now []).columns =
      ["Name", "Provider", "Category", "Cost", "Expiry Date", "Days Left",
       "Status", "Owner"]) ∧
    (services ≠ [] →
      (get_services_df now services).columns =
        ["Name", "Software", "Environment", "Provider", "Category", "Cost",
         "Expiry Date", "Days Left", "Status", "License Type", "Unit",
         "Quantity", "Utilized", "Contact Name", "Contact Email", "Notes"] ∧
      "Owner" ∉ (get_services_df now services).columns ∧
      (get_services_df now services).rows.length = services.length) := by
  refine ⟨rfl, ?_⟩
  intro hne
  cases services with
  | nil => exact absurd rfl hne
  | cons s0 rest =>
      have hcols : (get_services_df now (s0 :: rest)).columns =
          ["Name", "Software", "Environment", "Provider", "Category", "Cost",
           "Expiry Date", "Days Left", "Status", "License Type", "Unit",
           "Quantity", "Utilized", "Contact Name", "Contact Email",
           "Notes"] := by
        simpa [get_services_df] using reportRow_keys now s0
      refine ⟨hcols, ?_, ?_⟩
      · rw [hcols]
        decide
      · simp [get_services_df]

/-- C10 witness: the non-empty clause at a one-service list. -/
theorem c10_export_columns_witness :
    (get_services_df 0 [rsvcTen]).rows.length = [rsvcTen].length :=
  ((c10_export_columns 0 [rsvcTen]).2 (by decide)).2.2

/-- Three owners with e-mail addresses, matching the spec's partial-failure
example. -/
def svc3Owners : Service :=
  { svcDue with
    id := "svc-5",
    owners := [{ name := "Alice", email := some "alice@example.com" },
               { name := "Bob", email := some "bob@example.com" },
               { name := "Carol", email := some "carol@example.com" }] }

/-- An outcome oracle under which exactly the second owner's send fails. -/
def failSecond : String → Bool := fun e => !(e == "bob@example.com")

/-- C7 counterexample: at a due service with one owner the automatic sweep
persists exactly one notification-log document, and that document carries
no `status` key at all (the send outcome is discarded, server.py lines
1233-1248) — contradicting the claim that every persisted entry carries a
`"sent"`/`"failed"` status. -/
theorem c7_counterexample :
    (sweepService [30, 7, 1] 0 svcDue).2.1.map (fun l => l.status) =
      [none] := by
  decide

/-- C7 (amended): delivery outcomes never affect which owners are
attempted.  The manual dispatcher logs exactly one entry per owner with an
e-mail address, in owner order, each carrying status `"sent"` or
`"failed"` according to that owner's own outcome, and its attempted
e-mails are identical under any two outcome oracles; the automatic sweep
likewise writes one log entry per attempted (owner, threshold) pair, but
each of its entries carries no status field. -/
theorem c7_per_owner_logging (f g : String → Bool) (s : Service)
    (ths : List Int) (now : Int) :
    ((send_manual_reminder f s).logs.map (fun l => l.recipient_email) =
      s.owners.filterMap (fun o => o.email)) ∧
    ((send_manual_reminder f s).emails = (send_manual_reminder g s).emails) ∧
    (∀ l ∈ (send_manual_reminder f s).logs,
      l.status = some (if f l.recipient_email then "sent" else "failed") ∧
      l.type = "manual_reminder") ∧
    (∀ l ∈ (sweepService ths now s).2.1,
      l.status = none ∧ l.type = "auto_reminder") ∧
    ((sweepService ths now s).2.1.map (fun l => l.recipient_email) =
      (sweepService ths now s).1.map (fun e => e.toAddr)) := by
  refine ⟨?_, ?_, ?_, ?_, ?_⟩
  · cases hOwn : s.owners with
    | nil => simp [send_manual_reminder, hOwn]
    | cons o os =>
        simp only [send_manual_reminder, hOwn, List.isEmpty_cons,
          Bool.false_eq_true, if_false, List.map_map]
        exact filterMap_email_proj (o :: os) (fun o e => (o, e)) _
          (fun _ _ => rfl)
  · cases hOwn : s.owners with
    | nil => simp [send_manual_reminder, hOwn]
    | cons o os => simp [send_manual_reminder, hOwn]
  · intro l hl
    cases hOwn : s.owners with
    | nil => simp [send_manual_reminder, hOwn] at hl
    | cons o os =>
        simp only [send_manual_reminder, hOwn, List.isEmpty_cons,
          Bool.false_eq_true, if_false, List.mem_map] at hl
        obtain ⟨oe, hoe, rfl⟩ := hl
        exact ⟨rfl, rfl⟩
  · intro l hl
    cases hExp : s.expiry with
    | absent => simp [sweepService, hExp] at hl
    | malformed => simp [sweepService, hExp] at hl
    | parsed t =>
        simp only [sweepService, hExp, List.mem_flatMap,
          List.mem_filterMap] at hl
        obtain ⟨d, hd, o, ho, hmap⟩ := hl
        cases he : o.email with
        | none => rw [he] at hmap; exact Option.noConfusion hmap
        | some e =>
            rw [he] at hmap
            obtain rfl := Option.some_injective _ hmap
            exact ⟨rfl, rfl⟩
  · cases hExp : s.expiry with
    | absent => simp [sweepService, hExp]
    | malformed => simp [sweepService, hExp]
    | parsed t =>
        simp only [sweepService, hExp, List.map_flatMap, List.map_map]
        have hlog : ∀ d : Int,
            ((s.owners.filterMap (fun o => o.email.map (fun e =>
              ({ service_id := s.id, service_name := s.name,
                 recipient_email := e, recipient_name := o.name,
                 type := "auto_reminder", status := none,
                 days_until_expiry := some d } : LogEntry)))).map
              (fun l => l.recipient_email)) =
              s.owners.filterMap (fun o => o.email) := fun d =>
          filterMap_email_proj s.owners _ _ (fun _ _ => rfl)
        have hmail :
            ((s.owners.filterMap (fun o => o.email.map (fun e =>
              ({ toAddr := e,
                 subject := "Action Required: " ++ s.name ++ " Expiring Soon" }
                 : EmailAttempt)))).map (fun e => e.toAddr)) =
              s.owners.filterMap (fun o => o.email) :=
          filterMap_email_proj s.owners _ _ (fun _ _ => rfl)
        simp [hlog, hmail]

/-- C7 witness: the per-owner log alignment at the three-owner service
with the second send failing. -/
theorem c7_per_owner_logging_witness :
    (send_manual_reminder failSecond svc3Owners).logs.map
      (fun l => l.recipient_email) =
      svc3Owners.owners.filterMap (fun o => o.email) :=
  (c7_per_owner_logging failSecond failSecond svc3Owners [30, 7, 1] 0).1

/-- C8 counterexample: half a day past expiry the dashboard counts the
record as expired (truncated `.days` gives -1) while the report layer
classifies the same record as Critical (ceiling gives 0): the two
independently computed classifications disagree on the same record. -/
theorem c8_counterexample :
    dashboardBucket 0 (ExpiryField.parsed (-43200)) = DashBucket.expired ∧
    reportStatusOf 0 (ExpiryField.parsed (-43200)) none =
      some (Cell.str "Critical") ∧
    ¬ reportStatusOf 0 (ExpiryField.parsed (-43200)) none =
      some (Cell.str "Expired") := by
  decide

/-- C8 (amended): the dashboard's bucket and the report layer's status
agree whenever the parsed expiry lies a whole number of days from the
reference time — expired ↔ Expired, expiring-soon ↔ Critical or Warning,
safe ↔ Safe; off whole-day boundaries the truncation and ceiling
conventions can disagree. -/
theorem c8_buckets_agree_on_whole_days (now t : Int) (st : Option String)
    (h : (86400 : Int) ∣ (t - now)) :
    (dashboardBucket now (ExpiryField.parsed t) = DashBucket.expired ↔
      reportStatusOf now (ExpiryField.parsed t) st =
        some (Cell.str "Expired")) ∧
    (dashboardBucket now (ExpiryField.parsed t) = DashBucket.expiring_soon ↔
      (reportStatusOf now (ExpiryField.parsed t) st =
        some (Cell.str "Critical") ∨
       reportStatusOf now (ExpiryField.parsed t) st =
        some (Cell.str "Warning"))) ∧
    (dashboardBucket now (ExpiryField.parsed t) = DashBucket.safe ↔
      reportStatusOf now (ExpiryField.parsed t) st =
        some (Cell.str "Safe")) := by
  obtain ⟨k, hk⟩ := h
  have htd : tdDays (t - now) = k := by
    rw [hk, tdDays]
    exact Int.mul_fdiv_cancel_left k (by norm_num)
  have hcd : ceilDays (t - now) = k := by
    rw [hk, ceilDays]
    have hneg : -(86400 * k) = 86400 * (-k) := by ring
    rw [hneg, Int.mul_fdiv_cancel_left (-k) (by norm_num)]
    ring
  have hrs : reportStatusOf now (ExpiryField.parsed t) st =
      some (Cell.str (if k < 0 then "Expired" else if k ≤ 7 then "Critical"
        else if k ≤ 30 then "Warning" else "Safe")) := by
    rw [reportStatusOf, rowGet_status_parsed now t _ rfl, hcd]
  rw [hrs]
  simp only [dashboardBucket, htd]
  refine ⟨?_, ?_, ?_⟩ <;> split_ifs <;> simp <;> omega

/-- C8 witness: agreement at a record expiring exactly five whole days
after the reference time (expiring-soon ↔ Critical-or-Warning). -/
theorem c8_buckets_agree_witness :
    dashboardBucket 0 (ExpiryField.parsed 432000) = DashBucket.expiring_soon ↔
      (reportStatusOf 0 (ExpiryField.parsed 432000) none =
        some (Cell.str "Critical") ∨
       reportStatusOf 0 (ExpiryField.parsed 432000) none =
        some (Cell.str "Warning")) :=
  (c8_buckets_agree_on_whole_days 0 432000 none ⟨5, by norm_num⟩).2.1

end LicenseManager
